import Mathlib

/-!
Verification development for the flight-search analytics backend
(`backend/src/services/flightAnalysisService.ts`,
`backend/src/models/DailyWeatherData.ts`).

The TypeScript code is shallowly embedded: JavaScript numbers are modelled
as exact rationals (`ℚ`), calendar dates as explicit `(year, month, day)`
triples (the service consistently uses the UTC fields of its `Date`
values), and the database maps consulted by the classifier
(`weather_statistics`, `holiday_statistics`, `route_price_statistics`)
as functions `Nat → Option ℚ` keyed by the calendar month.  In the source
those maps are keyed by the period string `yyyy-MM`; inside one analysis
run the service associates exactly one period to each month number
(`monthPeriods`), so keying by month is the same composition.
-/

namespace FlightSearch

/-- JavaScript `Math.round`: round half toward positive infinity,
as an integer. -/
def jsRoundZ (q : ℚ) : ℤ := ⌊q + 1 / 2⌋

/-- JavaScript `Math.round` viewed back inside the numeric domain. -/
def jsRound (q : ℚ) : ℚ := (jsRoundZ q : ℚ)

/-- The season labels `'low' | 'normal' | 'high'`. -/
inductive Season where
  | low
  | normal
  | high
deriving DecidableEq, Repr

/-- The trip types `'one-way' | 'round-trip'`. -/
inductive TripType where
  | oneWay
  | roundTrip
deriving DecidableEq, Repr

/-- Passenger mix `{adults, children, infants}` of a request. -/
structure Passengers where
  adults : ℚ
  children : ℚ
  infants : ℚ
deriving DecidableEq, Repr

/-- A row of the `flight_prices` table as consumed by the analysis
service.  `year`/`month`/`day` are the UTC calendar fields of
`departure_date` (`month` is `getUTCMonth() + 1`, i.e. 1–12).
`airlineNameTh`/`airlineName` model `airline_name_th`/`airline_name`;
`season` is the label stored by ingestion on the row itself. -/
structure FlightPrice where
  year : Nat
  month : Nat
  day : Nat
  price : ℚ
  tripType : TripType
  season : Season
  airlineNameTh : String
  airlineName : String
deriving DecidableEq, Repr

/-- `{min, max}` price range of a season. -/
structure PriceRange where
  min : ℚ
  max : ℚ
deriving DecidableEq, Repr

/-- `bestDeal` entry of a season. -/
structure BestDeal where
  dates : String
  price : ℚ
  airline : String
deriving DecidableEq, Repr

/-- One element of the `SeasonData[]` result. -/
structure SeasonData where
  type : Season
  months : List String
  priceRange : PriceRange
  bestDeal : BestDeal
  description : String
deriving DecidableEq, Repr

/-- `getThaiMonthName(month)`: Thai month name for 1–12, `''` otherwise. -/
def getThaiMonthName (month : Nat) : String :=
  ["", "มกราคม", "กุมภาพันธ์", "มีนาคม", "เมษายน", "พฤษภาคม", "มิถุนายน",
   "กรกฎาคม", "สิงหาคม", "กันยายน", "ตุลาคม", "พฤศจิกายน", "ธันวาคม"].getD month ""

/-- `formatThaiDate(date)`: `"<day> <Thai month> <year>"` from the UTC
fields of the date. -/
def formatThaiDate (year month day : Nat) : String :=
  toString day ++ " " ++ getThaiMonthName month ++ " " ++ toString year

/-- `formatThaiDateShort(date)`: `"<day> <abbreviated Thai month>"`; the
source indexes its abbreviation table with the 0-based `getUTCMonth()`. -/
def formatThaiDateShort (month day : Nat) : String :=
  toString day ++ " " ++
    (["ม.ค.", "ก.พ.", "มี.ค.", "เม.ย.", "พ.ค.", "มิ.ย.",
      "ก.ค.", "ส.ค.", "ก.ย.", "ต.ค.", "พ.ย.", "ธ.ค."].getD (month - 1) "")

/-- `calculatePriceWithDiscounts(price, passengers)`:
adults pay full price, children 75%, infants 10%. -/
def calculatePriceWithDiscounts (price : ℚ) (passengers : Passengers) : ℚ :=
  price * passengers.adults + price * passengers.children * (75 / 100) +
    price * passengers.infants * (10 / 100)

/-- The month numbers `1..12` in ascending order; JavaScript object keys
that look like array indices enumerate in this order, which is the order
`Object.keys`/`Object.values` visit `monthPrices`, `monthAvgPrices` and
`monthSeasonScores`. -/
def monthsList : List Nat := (List.range 12).map (· + 1)

/-- The flight rows of a given departure month (in stored order). -/
def monthFlights (flightPrices : List FlightPrice) (m : Nat) : List FlightPrice :=
  flightPrices.filter (fun fp => fp.month = m)

/-- `monthPrices[month]` after the validity filter: the prices pushed for
a month are those that are valid numbers and `> 0`. -/
def monthValidPrices (flightPrices : List FlightPrice) (m : Nat) : List ℚ :=
  ((monthFlights flightPrices m).map (·.price)).filter (fun p => 0 < p)

/-- `monthAvgPrices[month]`: the average of the month's valid prices,
absent when the month has no valid price. -/
def monthAvgPrice (flightPrices : List FlightPrice) (m : Nat) : Option ℚ :=
  let ps := monthValidPrices flightPrices m
  if ps.isEmpty then none else some (ps.sum / (ps.length : ℚ))

/-- `allAvgPrices = Object.values(monthAvgPrices)` (ascending month
order). -/
def allAvgPrices (flightPrices : List FlightPrice) : List ℚ :=
  monthsList.filterMap (monthAvgPrice flightPrices)

/-- Ascending sort, as `sort((a, b) => a - b)`. -/
def sortQ (l : List ℚ) : List ℚ := List.insertionSort (· ≤ ·) l

/-- The fallback price percentile of a month with average price
`avgPrice`: the percent of monthly averages that are `≤ avgPrice`
(`sortedPrices.filter(p => p <= avgPrice).length / sortedPrices.length
* 100`). -/
def fallbackPricePercentile (flightPrices : List FlightPrice) (avgPrice : ℚ) : ℚ :=
  let sortedPrices := sortQ (allAvgPrices flightPrices)
  ((sortedPrices.filter (fun p => p ≤ avgPrice)).length : ℚ) /
      (sortedPrices.length : ℚ) * 100

/-- The multi-factor season score of a month: price percentile (from
`route_price_statistics` when present, else the fallback) weighted 0.6,
holiday score (default 50) weighted 0.3, weather score (default 50)
weighted 0.1.  Absent exactly when the month has no valid price. -/
def monthSeasonScore (flightPrices : List FlightPrice)
    (weatherData holidayData priceStats : Nat → Option ℚ) (m : Nat) : Option ℚ :=
  (monthAvgPrice flightPrices m).map (fun avgPrice =>
    let pricePercentile : ℚ :=
      match priceStats m with
      | some p => p
      | none => fallbackPricePercentile flightPrices avgPrice
    let weatherScore : ℚ := (weatherData m).getD 50
    let holidayScore : ℚ := (holidayData m).getD 50
    pricePercentile * (6 / 10) + holidayScore * (3 / 10) + weatherScore * (1 / 10))

/-- `allScores`: the season scores of the months that have data, sorted
ascending. -/
def allSeasonScores (flightPrices : List FlightPrice)
    (weatherData holidayData priceStats : Nat → Option ℚ) : List ℚ :=
  sortQ (monthsList.filterMap (monthSeasonScore flightPrices weatherData holidayData priceStats))

/-- `percentile(sortedArr, p)`: `sortedArr[max(0, ceil(p/100 · n) − 1)]`,
0 for an empty array.  (For the percentiles the service uses, 33 and 67,
the index is always in range; the `getD` default mirrors that an
out-of-range JavaScript read never happens on these calls.) -/
def percentile (sortedArr : List ℚ) (p : ℚ) : ℚ :=
  if sortedArr.length = 0 then 0
  else sortedArr.getD (max 0 (⌈p / 100 * (sortedArr.length : ℚ)⌉ - 1)).toNat 0

/-- `scoreLowThreshold`: the 33rd percentile of the season scores. -/
def scoreLowThreshold (flightPrices : List FlightPrice)
    (weatherData holidayData priceStats : Nat → Option ℚ) : ℚ :=
  percentile (allSeasonScores flightPrices weatherData holidayData priceStats) 33

/-- `scoreHighThreshold`: the 67th percentile of the season scores. -/
def scoreHighThreshold (flightPrices : List FlightPrice)
    (weatherData holidayData priceStats : Nat → Option ℚ) : ℚ :=
  percentile (allSeasonScores flightPrices weatherData holidayData priceStats) 67

/-- `monthSeasonMap`: months with a score are classified `low` when the
score is `≤` the low threshold, else `high` when it is `≥` the high
threshold, else `normal`; months without a score get no entry. -/
def monthSeasonMapOf (flightPrices : List FlightPrice)
    (weatherData holidayData priceStats : Nat → Option ℚ) (m : Nat) : Option Season :=
  (monthSeasonScore flightPrices weatherData holidayData priceStats m).map (fun score =>
    if score ≤ scoreLowThreshold flightPrices weatherData holidayData priceStats then Season.low
    else if scoreHighThreshold flightPrices weatherData holidayData priceStats ≤ score then
      Season.high
    else Season.normal)

/-- `seasonMonths`: the loop `for (i = 1; i <= 12; i++)` pushes every
month into the bucket `monthSeasonMap[i] || 'normal'`, so months without
data default to `normal`.  Ascending iteration leaves each bucket
sorted. -/
def seasonMonthsOf (flightPrices : List FlightPrice)
    (weatherData holidayData priceStats : Nat → Option ℚ) (s : Season) : List Nat :=
  monthsList.filter (fun m =>
    (monthSeasonMapOf flightPrices weatherData holidayData priceStats m).getD Season.normal = s)

/-- `seasonPrices`: every flight row's price is pushed into the bucket of
`monthSeasonMap[month] || 'normal'`. -/
def seasonPricesOf (flightPrices : List FlightPrice)
    (weatherData holidayData priceStats : Nat → Option ℚ) (s : Season) : List ℚ :=
  (flightPrices.filter (fun fp =>
    (monthSeasonMapOf flightPrices weatherData holidayData priceStats fp.month).getD
        Season.normal = s)).map (·.price)

/-- `Math.min(...prices)` over a non-empty list (0 is never consulted:
callers check emptiness first). -/
def listMin : List ℚ → ℚ
  | [] => 0
  | h :: t => t.foldl min h

/-- `Math.max(...prices)` over a non-empty list. -/
def listMax : List ℚ → ℚ
  | [] => 0
  | h :: t => t.foldl max h

/-- `getPriceRangeForSeason`: min/max of the season's price bucket; when
the bucket is empty, refilter `flightPrices` by the strict
`monthSeasonMap[month] === seasonType` test; when that is also empty,
report the `{min: 0, max: 0}` sentinel. -/
def getPriceRangeForSeason (flightPrices : List FlightPrice)
    (weatherData holidayData priceStats : Nat → Option ℚ) (s : Season) : PriceRange :=
  let prices := seasonPricesOf flightPrices weatherData holidayData priceStats s
  if prices.isEmpty then
    let fallback := (flightPrices.filter (fun fp =>
      monthSeasonMapOf flightPrices weatherData holidayData priceStats fp.month =
        some s)).map (·.price)
    if fallback.isEmpty then ⟨0, 0⟩ else ⟨listMin fallback, listMax fallback⟩
  else ⟨listMin prices, listMax prices⟩

/-- `reduce((min, fp) => fp.price < min.price ? fp : min)`: the first
cheapest flight of a non-empty list. -/
def cheapestFlight : List FlightPrice → Option FlightPrice
  | [] => none
  | h :: t => some (t.foldl (fun best fp => if fp.price < best.price then fp else best) h)

/-- `cheapest.airline_name_th || cheapest.airline_name || ''`. -/
def airlineDisplayName (fp : FlightPrice) : String :=
  if fp.airlineNameTh ≠ "" then fp.airlineNameTh
  else if fp.airlineName ≠ "" then fp.airlineName
  else ""

/-- `findBestDealByMonthSeason`: cheapest flight whose departure month is
mapped (strictly) to the target season; `{dates: '', price: 0,
airline: ''}` when none matches. -/
def findBestDealByMonthSeason (flightPrices : List FlightPrice)
    (weatherData holidayData priceStats : Nat → Option ℚ) (s : Season) : BestDeal :=
  match cheapestFlight (flightPrices.filter (fun fp =>
      monthSeasonMapOf flightPrices weatherData holidayData priceStats fp.month = some s)) with
  | some fp => ⟨formatThaiDate fp.year fp.month fp.day, fp.price, airlineDisplayName fp⟩
  | none => ⟨"", 0, ""⟩

/-- `getEmptySeasons()`. -/
def getEmptySeasons : List SeasonData :=
  [⟨Season.low, [], ⟨0, 0⟩, ⟨"", 0, ""⟩, "No data available"⟩,
   ⟨Season.normal, [], ⟨0, 0⟩, ⟨"", 0, ""⟩, "No data available"⟩,
   ⟨Season.high, [], ⟨0, 0⟩, ⟨"", 0, ""⟩, "No data available"⟩]

/-- Description strings of the three seasons. -/
def seasonDescription : Season → String
  | Season.low => "ราคาถูกที่สุดของปี เหมาะสำหรับผู้ที่มีความยืดหยุ่นในการเดินทาง"
  | Season.normal => "ราคาปานกลาง อากาศดี เหมาะสำหรับการท่องเที่ยว"
  | Season.high => "ช่วงเทศกาลและปิดเทอม ราคาสูงสุด แนะนำจองล่วงหน้า"

/-- One entry of the `SeasonData[]` result of the live classifier. -/
def buildSeasonData (flightPrices : List FlightPrice)
    (weatherData holidayData priceStats : Nat → Option ℚ) (s : Season) : SeasonData :=
  { type := s
    months := (seasonMonthsOf flightPrices weatherData holidayData priceStats s).map
      getThaiMonthName
    priceRange := getPriceRangeForSeason flightPrices weatherData holidayData priceStats s
    bestDeal := findBestDealByMonthSeason flightPrices weatherData holidayData priceStats s
    description := seasonDescription s }

/-- `calculateSeasonsFromFlightPricesWithDemand(flightPrices, _routeId,
weatherData, holidayData, ...)`: empty seasons when there are no flight
rows or no month has a valid average; otherwise the three `SeasonData`
entries in the order low, normal, high. -/
def calculateSeasonsFromFlightPricesWithDemand (flightPrices : List FlightPrice)
    (weatherData holidayData priceStats : Nat → Option ℚ) : List SeasonData :=
  if flightPrices.isEmpty then getEmptySeasons
  else if (allAvgPrices flightPrices).isEmpty then getEmptySeasons
  else
    [buildSeasonData flightPrices weatherData holidayData priceStats Season.low,
     buildSeasonData flightPrices weatherData holidayData priceStats Season.normal,
     buildSeasonData flightPrices weatherData holidayData priceStats Season.high]

/-- A calendar date as the UTC triple the service works with. -/
structure DateT where
  year : Nat
  month : Nat
  day : Nat
deriving DecidableEq, Repr

/-- Gregorian leap-year test. -/
def isLeapYear (y : Nat) : Bool := (y % 4 = 0 && y % 100 ≠ 0) || y % 400 = 0

/-- Number of days of a calendar month (`new Date(Date.UTC(y, m, 0))`). -/
def daysInMonth (y m : Nat) : Nat :=
  if m = 2 then (if isLeapYear y then 29 else 28)
  else if m = 4 ∨ m = 6 ∨ m = 9 ∨ m = 11 then 30
  else 31

/-- The day after a date. -/
def nextDay (d : DateT) : DateT :=
  if d.day < daysInMonth d.year d.month then ⟨d.year, d.month, d.day + 1⟩
  else if d.month < 12 then ⟨d.year, d.month + 1, 1⟩
  else ⟨d.year + 1, 1, 1⟩

/-- `addDays(date, n)` for the non-negative day counts the service
uses. -/
def addDaysT (d : DateT) (n : Nat) : DateT := nextDay^[n] d

/-- One entry of `priceChartData`. -/
structure ChartEntry where
  startDate : String
  returnDate : String
  price : ℚ
  season : Season
  duration : Option ℚ
deriving DecidableEq, Repr

/-- The `flightPrices.find(...)` lookup of `generateChartData`: the FIRST
row (in stored order) whose departure date equals the given day; the trip
type is not consulted here. -/
def findFlightOnDay (flightPrices : List FlightPrice) (y m d : Nat) : Option FlightPrice :=
  flightPrices.find? (fun fp => fp.year = y && fp.month = m && fp.day = d)

/-- The price charted for a day: the first matching row's price, 0 when
no row matches. -/
def chartDayPrice (flightPrices : List FlightPrice) (y m d : Nat) : ℚ :=
  match findFlightOnDay flightPrices y m d with
  | some fp => fp.price
  | none => 0

/-- The body of the chart loop for one day `d` of the chart month: an
entry is produced exactly when the day has a matching row with positive
price, or is the selected `startDate` itself.  The entry's price is
`Math.round` of the first matching row's price (0 when none), its season
is that row's stored `season` field (`'normal'` when none). -/
def chartEntryForDay (flightPrices : List FlightPrice) (startDate? : Option DateT)
    (target : DateT) (avgDuration : Option ℚ) (tripType : Option TripType)
    (d : Nat) : Option ChartEntry :=
  let matchingFlight := findFlightOnDay flightPrices target.year target.month d
  let price : ℚ := chartDayPrice flightPrices target.year target.month d
  let hasData := 0 < price
  let isSelectedDate := startDate? = some ⟨target.year, target.month, d⟩
  if hasData ∨ isSelectedDate then
    some
      { startDate := formatThaiDateShort target.month d
        returnDate :=
          match tripType, avgDuration with
          | some TripType.roundTrip, some dur =>
              if dur = 0 then ""
              else
                let r := addDaysT ⟨target.year, target.month, d⟩ (jsRoundZ dur).toNat
                formatThaiDateShort r.month r.day
          | _, _ => ""
        price := jsRound price
        season := (matchingFlight.map (·.season)).getD Season.normal
        duration :=
          match avgDuration with
          | some dur => if dur = 0 then none else some (jsRound dur)
          | none => none }
  else none

/-- `generateChartData(flightPrices, startDate?, endDate?, avgDuration?,
tripType?, passengers)`.  The chart month is the month of
`startDate || endDate || today`; the loop walks every day 1..last of that
month; the `passengers` argument is not used by the emitted prices. -/
def generateChartData (flightPrices : List FlightPrice)
    (startDate? endDate? : Option DateT) (today : DateT)
    (avgDuration : Option ℚ) (tripType : Option TripType)
    (_passengers : Passengers) : List ChartEntry :=
  let target := startDate?.getD (endDate?.getD today)
  (List.range (daysInMonth target.year target.month)).filterMap (fun i =>
    chartEntryForDay flightPrices startDate? target avgDuration tripType (i + 1))

/-- `getPriceForDate(flightPrices, date, tripType, ...)`: the cheapest
price among the rows whose departure date and trip type match; 0 when no
row matches. -/
def getPriceForDate (flightPrices : List FlightPrice) (date : DateT)
    (tripType : TripType) : ℚ :=
  let matchingFlights := flightPrices.filter (fun fp =>
    fp.year = date.year && fp.month = date.month && fp.day = date.day &&
      fp.tripType = tripType)
  match cheapestFlight matchingFlights with
  | some fp => fp.price
  | none => 0

/-- The savings branch when the user selected a departure date
(`analyzeFlightPrices`, user-selected case): the raw best price on the
selected date minus the passenger-scaled recommended price, only when
both are positive and the former is larger. -/
def savingsWithSelectedDate (userSelectedPrice adjustedRecommendedPrice : ℚ) : ℚ :=
  if 0 < userSelectedPrice ∧ 0 < adjustedRecommendedPrice ∧
      adjustedRecommendedPrice < userSelectedPrice then
    userSelectedPrice - adjustedRecommendedPrice
  else 0

/-- The savings branch when no date was selected: the high season's
best-deal price (`|| 0`) minus the passenger-scaled recommended price,
under the same positivity guard. -/
def savingsWithoutSelectedDate (highSeasonPrice adjustedRecommendedPrice : ℚ) : ℚ :=
  if 0 < highSeasonPrice ∧ 0 < adjustedRecommendedPrice ∧
      adjustedRecommendedPrice < highSeasonPrice then
    highSeasonPrice - adjustedRecommendedPrice
  else 0

/-- The trip-type factor applied when a money value is emitted:
one-way results are halved. -/
def tripTypeFactor (tripType : TripType) : ℚ :=
  if tripType = TripType.oneWay then 1 / 2 else 1

/-- `recommendedPeriod.price`: the passenger-scaled best-deal price,
halved for one-way trips, then rounded. -/
def recommendedPeriodPrice (recommendedPrice : ℚ) (passengers : Passengers)
    (tripType : TripType) : ℚ :=
  jsRound (calculatePriceWithDiscounts recommendedPrice passengers * tripTypeFactor tripType)

/-- `recommendedPeriod.savings` as emitted: the computed savings value,
halved for one-way trips, then rounded. -/
def emittedSavings (savings : ℚ) (tripType : TripType) : ℚ :=
  jsRound (savings * tripTypeFactor tripType)

/-- The per-season display mapping of the result (`seasons: ...map`):
best-deal price and both ends of the price range are passenger-scaled,
halved for one-way trips, and rounded. -/
def displayedSeason (season : SeasonData) (passengers : Passengers)
    (tripType : TripType) : SeasonData :=
  { season with
    priceRange :=
      ⟨jsRound (calculatePriceWithDiscounts season.priceRange.min passengers *
          tripTypeFactor tripType),
       jsRound (calculatePriceWithDiscounts season.priceRange.max passengers *
          tripTypeFactor tripType)⟩
    bestDeal :=
      { season.bestDeal with
        price := jsRound (calculatePriceWithDiscounts season.bestDeal.price passengers *
          tripTypeFactor tripType) } }

/-- The two values of the `source` column of `daily_weather_data`:
`'open-meteo'` is the historical archive, `'openweathermap'` the
short-range forecast. -/
inductive WeatherSource where
  | openMeteo
  | openWeatherMap
deriving DecidableEq, Repr

/-- A row of `daily_weather_data` (the generated `id` and timestamps are
not modelled). -/
structure DailyWeatherRow where
  province : String
  date : String
  tempMax : ℚ
  tempMin : ℚ
  tempAvg : ℚ
  precipitation : ℚ
  humidity : Option ℚ
  source : WeatherSource
  year : Nat
  month : Nat
  day : Nat
deriving DecidableEq, Repr

/-- `upsertDailyWeatherData`: `INSERT ... ON CONFLICT (province, date) DO
UPDATE SET` every data column, including `source`, to the incoming
(`EXCLUDED`) values. -/
def upsertDailyWeatherData (db : List DailyWeatherRow) (row : DailyWeatherRow) :
    List DailyWeatherRow :=
  if db.any (fun r => r.province = row.province && r.date = row.date) then
    db.map (fun r => if r.province = row.province && r.date = row.date then row else r)
  else db ++ [row]

/-- The stored row of a `(province, date)` key. -/
def lookupWeather (db : List DailyWeatherRow) (province date : String) :
    Option DailyWeatherRow :=
  db.find? (fun r => r.province = province && r.date = date)

/-- JavaScript `ToInt32`: wrap an integer into `[-2^31, 2^31)`. -/
def toInt32 (n : ℤ) : ℤ := (n + 2 ^ 31) % 2 ^ 32 - 2 ^ 31

/-- One step of the rolling hash: `hash = (hash << 5) - hash + char;
hash = hash & hash`.  On an int32 accumulator `<< 5` is multiplication by
32 wrapped to 32 bits, and `& hash` wraps the sum back to 32 bits. -/
def hashStep (hash : ℤ) (char : Nat) : ℤ :=
  toInt32 (toInt32 (hash * 32) - hash + char)

/-- The 32-bit rolling hash of a seed, folded over the seed's character
codes starting from 0. -/
def hashString (seed : List Nat) : ℤ := seed.foldl hashStep 0

/-- `deterministicRandom(seed)`: `Math.abs(hash) % 1000000 / 1000000`. -/
def deterministicRandom (seed : List Nat) : ℚ :=
  (((hashString seed).natAbs % 1000000 : ℕ) : ℚ) / 1000000

/-- Stated from the specification's words, for comparison with the
implementation: the p-th percentile of a score list is the element of the
ascending-sorted list at `index = ceil(p/100 · n) − 1`, clamped to 0. -/
def specPercentile (scores : List ℚ) (p : ℚ) : ℚ :=
  (sortQ scores).getD (max 0 (⌈p / 100 * (scores.length : ℚ)⌉ - 1)).toNat 0

/-! ### Concrete fixtures used by the closed theorems below -/

/-- The everywhere-absent database map (no weather, holiday or price
statistics stored). -/
def mapNone : Nat → Option ℚ := fun _ => none

/-- A round-trip economy row fixture. -/
def mkFlight (m d : Nat) (p : ℚ) : FlightPrice :=
  ⟨2026, m, d, p, TripType.roundTrip, Season.normal, "", "Thai Air"⟩

/-- One flight row (January). -/
def sampleOneFlight : List FlightPrice := [mkFlight 1 5 100]

/-- Flight data in two months only (January and February). -/
def sampleTwoMonths : List FlightPrice := [mkFlight 1 5 100, mkFlight 2 10 200]

/-- Flight data in three months, all rows with the same price. -/
def sampleEqualPrices : List FlightPrice :=
  [mkFlight 1 5 100, mkFlight 2 10 100, mkFlight 3 15 100]

/-- Flight data in three months with pairwise distinct prices. -/
def sampleDistinctPrices : List FlightPrice :=
  [mkFlight 1 5 100, mkFlight 2 10 200, mkFlight 3 15 400]

/-- Two rows on the same departure day, the earlier-stored one more
expensive. -/
def sampleChartFlights : List FlightPrice := [mkFlight 1 5 300, mkFlight 1 5 200]

/-- A one-way row with stored price 1000. -/
def sampleOneWayFlight : FlightPrice :=
  ⟨2026, 1, 5, 1000, TripType.oneWay, Season.normal, "", "X"⟩

/-- One round-trip row with price 1000 on 2026-03-10. -/
def sampleSavingsFlights : List FlightPrice := [mkFlight 3 10 1000]

/-- Passenger mix {adults: 2, children: 1, infants: 1}. -/
def passengers211 : Passengers := ⟨2, 1, 1⟩

/-- Passenger mix {adults: 2, children: 0, infants: 0}. -/
def passengers200 : Passengers := ⟨2, 0, 0⟩

/-- Passenger mix {adults: 1, children: 0, infants: 0}. -/
def passengers100 : Passengers := ⟨1, 0, 0⟩

/-- A stored historical (`open-meteo`) daily weather row. -/
def historicalRow : DailyWeatherRow :=
  ⟨"bangkok", "2025-01-01", 30, 20, 25, 0, none, WeatherSource.openMeteo, 2025, 1, 1⟩

/-- An incoming forecast (`openweathermap`) row for the same
(province, date). -/
def forecastRow : DailyWeatherRow :=
  ⟨"bangkok", "2025-01-01", 31, 21, 26, 1, some 70, WeatherSource.openWeatherMap, 2025, 1, 1⟩

/-! ### Helper lemmas -/

theorem toInt32_bounds (n : ℤ) : -2 ^ 31 ≤ toInt32 n ∧ toInt32 n < 2 ^ 31 := by
  unfold toInt32
  have h1 : 0 ≤ (n + 2 ^ 31) % 2 ^ 32 :=
    Int.emod_nonneg _ (by norm_num)
  have h2 : (n + 2 ^ 31) % 2 ^ 32 < 2 ^ 32 :=
    Int.emod_lt_of_pos _ (by norm_num)
  omega

theorem hashStep_bounds (h : ℤ) (c : Nat) :
    -2 ^ 31 ≤ hashStep h c ∧ hashStep h c < 2 ^ 31 :=
  toInt32_bounds _

theorem foldl_hashStep_bounds (seed : List Nat) :
    ∀ h : ℤ, -2 ^ 31 ≤ h → h < 2 ^ 31 →
      -2 ^ 31 ≤ seed.foldl hashStep h ∧ seed.foldl hashStep h < 2 ^ 31 := by
  induction seed with
  | nil => exact fun h h1 h2 => ⟨h1, h2⟩
  | cons c cs ih =>
      intro h _ _
      exact ih (hashStep h c) (hashStep_bounds h c).1 (hashStep_bounds h c).2

/-- C9 — the deterministic PRNG folds the 32-bit rolling hash
`h = toInt32((h << 5) − h + c)` over the seed's character codes, keeps the
accumulator inside the signed 32-bit range, and returns
`(|h| mod 10^6) / 10^6`, a rational in `[0, 1)`; being a pure function of
the seed, the same seed always yields the same value, so fabricated
fallback scores are reproducible. -/
theorem C9_deterministic_random (seed : List Nat) :
    deterministicRandom seed =
      (((hashString seed).natAbs % 1000000 : ℕ) : ℚ) / 1000000 ∧
    hashString seed =
      seed.foldl (fun (h : ℤ) (c : Nat) => toInt32 (toInt32 (h * 32) - h + (c : ℤ))) 0 ∧
    (-2 ^ 31 ≤ hashString seed ∧ hashString seed < 2 ^ 31) ∧
    0 ≤ deterministicRandom seed ∧ deterministicRandom seed < 1 ∧
    deterministicRandom seed = deterministicRandom seed := by
  have hbounds := foldl_hashStep_bounds seed 0 (by norm_num) (by norm_num)
  have hmod : (hashString seed).natAbs % 1000000 < 1000000 :=
    Nat.mod_lt _ (by norm_num)
  refine ⟨rfl, rfl, hbounds, ?_, ?_, rfl⟩
  · unfold deterministicRandom
    positivity
  · unfold deterministicRandom
    rw [div_lt_one (by norm_num)]
    exact_mod_cast hmod

/-- C10 — with zero flight rows the season calculation returns exactly
three entries in the order low, normal, high, each with an empty month
list, a `{min: 0, max: 0}` price range and the empty best deal. -/
theorem C10_empty_flight_rows (weatherData holidayData priceStats : Nat → Option ℚ) :
    calculateSeasonsFromFlightPricesWithDemand [] weatherData holidayData priceStats =
      [⟨Season.low, [], ⟨0, 0⟩, ⟨"", 0, ""⟩, "No data available"⟩,
       ⟨Season.normal, [], ⟨0, 0⟩, ⟨"", 0, ""⟩, "No data available"⟩,
       ⟨Season.high, [], ⟨0, 0⟩, ⟨"", 0, ""⟩, "No data available"⟩] := rfl

set_option maxRecDepth 200000 in
/-- C7 counterexample — with two adults, a selected-date stored price of
1000 and a recommended stored price of 800, the code's savings is 0
(the raw 1000 is compared against the scaled 1600), while the claimed
`max(0, anchor − recommended)` with Pricing Rules applied to both sides is
`max(0, 2000 − 1600) = 400`. -/
theorem C7_counterexample :
    getPriceForDate sampleSavingsFlights ⟨2026, 3, 10⟩ TripType.roundTrip = 1000 ∧
    calculatePriceWithDiscounts 800 passengers200 = 1600 ∧
    savingsWithSelectedDate
      (getPriceForDate sampleSavingsFlights ⟨2026, 3, 10⟩ TripType.roundTrip)
      (calculatePriceWithDiscounts 800 passengers200) = 0 ∧
    max 0 (calculatePriceWithDiscounts 1000 passengers200 -
      calculatePriceWithDiscounts 800 passengers200) = 400 ∧
    (0 : ℚ) ≠ 400 := by
  with_unfolding_all decide

/-- C7 amended — savings equals `max(0, lhs − rhs)` gated on both sides
being positive, where the Pricing Rules scaling is applied only to the
recommended side by the caller: the selected-date (resp. high-season)
side is the raw stored price; the result is 0 whenever either side is
missing (≤ 0). -/
theorem C7_savings_shape :
    (∀ p q : ℚ, savingsWithSelectedDate p q =
      if 0 < p ∧ 0 < q then max 0 (p - q) else 0) ∧
    (∀ p q : ℚ, savingsWithoutSelectedDate p q =
      if 0 < p ∧ 0 < q then max 0 (p - q) else 0) ∧
    (∀ p q : ℚ, p ≤ 0 ∨ q ≤ 0 →
      savingsWithSelectedDate p q = 0 ∧ savingsWithoutSelectedDate p q = 0) := by
  have key : ∀ p q : ℚ,
      (if 0 < p ∧ 0 < q ∧ q < p then p - q else 0) =
        if 0 < p ∧ 0 < q then max 0 (p - q) else 0 := by
    intro p q
    by_cases hp : 0 < p
    · by_cases hq : 0 < q
      · by_cases hqp : q < p
        · rw [if_pos ⟨hp, hq, hqp⟩, if_pos ⟨hp, hq⟩,
            max_eq_right (by linarith : (0 : ℚ) ≤ p - q)]
        · rw [if_neg (by tauto), if_pos ⟨hp, hq⟩,
            max_eq_left (by linarith : p - q ≤ (0 : ℚ))]
      · rw [if_neg (by tauto), if_neg (by tauto)]
    · rw [if_neg (by tauto), if_neg (by tauto)]
  refine ⟨fun p q => key p q, fun p q => key p q, fun p q hpq => ?_⟩
  constructor
  · show (if 0 < p ∧ 0 < q ∧ q < p then p - q else 0) = 0
    rw [if_neg (by rcases hpq with h | h <;> push_neg <;> intro <;> intro <;> linarith)]
  · show (if 0 < p ∧ 0 < q ∧ q < p then p - q else 0) = 0
    rw [if_neg (by rcases hpq with h | h <;> push_neg <;> intro <;> intro <;> linarith)]

/-- C7 amended, witnessed at a concrete input. -/
theorem C7_savings_shape_witness :
    ((1000 : ℚ) ≤ 0 ∨ (0 : ℚ) ≤ 0) ∧
    savingsWithSelectedDate 1000 0 = 0 ∧ savingsWithoutSelectedDate 1000 0 = 0 :=
  ⟨Or.inr le_rfl, C7_savings_shape.2.2 1000 0 (Or.inr le_rfl)⟩

theorem find?_append_single {α : Type} (q : α → Bool) (l : List α) (x : α)
    (hl : l.find? q = none) : (l ++ [x]).find? q = if q x then some x else none := by
  induction l with
  | nil => cases hqx : q x <;> simp [List.find?, hqx]
  | cons hd tl ih =>
      rw [List.find?_cons] at hl
      cases hq : q hd
      · rw [hq] at hl
        simpa [List.find?_cons, hq] using ih hl
      · rw [hq] at hl
        exact absurd hl (by simp)

theorem find?_map_keyhit (row : DailyWeatherRow) (k : DailyWeatherRow → Bool)
    (hrow : k row = true) (db : List DailyWeatherRow) (hany : db.any k = true) :
    (db.map (fun r => if k r then row else r)).find? k = some row := by
  induction db with
  | nil => simp at hany
  | cons hd tl ih =>
      cases hk : k hd
      · have htl : tl.any k = true := by
          rcases List.any_eq_true.mp hany with ⟨x, hx, hkx⟩
          rcases List.mem_cons.mp hx with rfl | hx'
          · rw [hk] at hkx; cases hkx
          · exact List.any_eq_true.mpr ⟨x, hx', hkx⟩
        simpa [List.find?_cons, hk] using ih htl
      · simp [List.find?_cons, hk, hrow]

theorem find?_map_keymiss (row : DailyWeatherRow) (k q : DailyWeatherRow → Bool)
    (hrow : q row = false) (himp : ∀ r, k r = true → q r = false)
    (db : List DailyWeatherRow) :
    (db.map (fun r => if k r then row else r)).find? q = db.find? q := by
  induction db with
  | nil => rfl
  | cons hd tl ih =>
      cases hk : k hd
      · cases hq : q hd <;> simp [List.find?_cons, hk, hq, ih]
      · have hqhd : q hd = false := himp hd hk
        simp [List.find?_cons, hk, hrow, hqhd, ih]

set_option maxRecDepth 200000 in
/-- C8 counterexample — starting from a store holding a historical
(`open-meteo`) row for (bangkok, 2025-01-01), upserting a forecast
(`openweathermap`) row for the same key replaces it: the stored source
becomes the forecast source, so a forecast upsert does displace a
historical row. -/
theorem C8_counterexample :
    (lookupWeather (upsertDailyWeatherData [historicalRow] forecastRow)
      "bangkok" "2025-01-01").map (·.source) = some WeatherSource.openWeatherMap ∧
    historicalRow.source = WeatherSource.openMeteo ∧
    forecastRow.source = WeatherSource.openWeatherMap ∧
    WeatherSource.openWeatherMap ≠ WeatherSource.openMeteo := by
  decide

/-- C8 amended — `upsertDailyWeatherData` is last-writer-wins on the
(province, date) key: on conflict every stored column, including
`source`, is overwritten by the incoming row (`DO UPDATE SET ... source =
EXCLUDED.source`), so a later forecast row does replace a stored
historical row; rows under other keys are untouched.  No guard in the
model prefers the historical source. -/
theorem C8_upsert_last_writer_wins :
    (∀ (db : List DailyWeatherRow) (row : DailyWeatherRow),
      lookupWeather (upsertDailyWeatherData db row) row.province row.date = some row) ∧
    (∀ (db : List DailyWeatherRow) (row : DailyWeatherRow) (province date : String),
      province ≠ row.province ∨ date ≠ row.date →
      lookupWeather (upsertDailyWeatherData db row) province date =
        lookupWeather db province date) := by
  constructor
  · intro db row
    unfold lookupWeather upsertDailyWeatherData
    by_cases hany : db.any (fun r => r.province = row.province && r.date = row.date) = true
    · rw [if_pos hany]
      exact find?_map_keyhit row _ (by simp) db hany
    · rw [if_neg hany]
      have hnone : db.find? (fun r => r.province = row.province && r.date = row.date) = none := by
        rw [List.find?_eq_none]
        intro x hx hqx
        exact hany (List.any_eq_true.mpr ⟨x, hx, hqx⟩)
      rw [find?_append_single _ _ _ hnone, if_pos (by simp)]
  · intro db row province date hne
    unfold lookupWeather upsertDailyWeatherData
    have hrowq : (decide (row.province = province) && decide (row.date = date)) = false := by
      rcases hne with h | h <;> simp [Ne.symm h]
    by_cases hany : db.any (fun r => r.province = row.province && r.date = row.date) = true
    · rw [if_pos hany]
      refine find?_map_keymiss row _ _ hrowq ?_ db
      intro r hk
      have hk' := hk
      simp only [Bool.and_eq_true, decide_eq_true_eq] at hk'
      rcases hne with h | h <;>
        simp [hk'.1, hk'.2, Ne.symm h]
    · rw [if_neg hany]
      have hq : (decide (row.province = province) && decide (row.date = date)) = false := hrowq
      induction db with
      | nil => simp [List.find?, hq]
      | cons hd tl ih =>
          cases hqhd : (decide (hd.province = province) && decide (hd.date = date)) <;>
            simp_all [List.find?_cons]

/-- C8 amended, witnessed at a concrete input. -/
theorem C8_upsert_last_writer_wins_witness :
    ("phuket" ≠ forecastRow.province ∨ "2025-01-01" ≠ forecastRow.date) ∧
    lookupWeather (upsertDailyWeatherData [historicalRow] forecastRow)
        "phuket" "2025-01-01" =
      lookupWeather [historicalRow] "phuket" "2025-01-01" :=
  ⟨Or.inl (by decide),
   C8_upsert_last_writer_wins.2 [historicalRow] forecastRow "phuket" "2025-01-01"
     (Or.inl (by decide))⟩

theorem chartEntryForDay_eq_some (fps : List FlightPrice) (sd? : Option DateT)
    (target : DateT) (dur : Option ℚ) (tt : Option TripType) (d : Nat) (e : ChartEntry)
    (h : chartEntryForDay fps sd? target dur tt d = some e) :
    e.startDate = formatThaiDateShort target.month d ∧
    e.price = jsRound (chartDayPrice fps target.year target.month d) ∧
    e.season = ((findFlightOnDay fps target.year target.month d).map (·.season)).getD
      Season.normal ∧
    (0 < chartDayPrice fps target.year target.month d ∨
      sd? = some ⟨target.year, target.month, d⟩) := by
  unfold chartEntryForDay at h
  dsimp only at h
  split at h
  case isTrue hcond =>
    cases h
    exact ⟨rfl, rfl, rfl, hcond⟩
  case isFalse hcond => cases h

theorem chartEntryForDay_anchor (fps : List FlightPrice) (target : DateT)
    (dur : Option ℚ) (tt : Option TripType) :
    ∃ e, chartEntryForDay fps (some target) target dur tt target.day = some e := by
  unfold chartEntryForDay
  dsimp only
  rw [if_pos (Or.inr (by cases target; rfl))]
  exact ⟨_, rfl⟩

theorem generateChartData_mem_spec (fps : List FlightPrice) (target : DateT)
    (ed? : Option DateT) (today : DateT) (dur : Option ℚ) (tt : Option TripType)
    (pass : Passengers) :
    ∀ e ∈ generateChartData fps (some target) ed? today dur tt pass,
      ∃ d, 1 ≤ d ∧ d ≤ daysInMonth target.year target.month ∧
        chartEntryForDay fps (some target) target dur tt d = some e := by
  intro e he
  unfold generateChartData at he
  simp only [Option.getD_some] at he
  rw [List.mem_filterMap] at he
  obtain ⟨i, hi, hf⟩ := he
  rw [List.mem_range] at hi
  exact ⟨i + 1, by omega, by omega, hf⟩

theorem generateChartData_anchor_mem (fps : List FlightPrice) (target : DateT)
    (ed? : Option DateT) (today : DateT) (dur : Option ℚ) (tt : Option TripType)
    (pass : Passengers) (hd1 : 1 ≤ target.day)
    (hd2 : target.day ≤ daysInMonth target.year target.month) :
    ∃ e ∈ generateChartData fps (some target) ed? today dur tt pass,
      chartEntryForDay fps (some target) target dur tt target.day = some e := by
  obtain ⟨e, he⟩ := chartEntryForDay_anchor fps target dur tt
  refine ⟨e, ?_, he⟩
  unfold generateChartData
  simp only [Option.getD_some]
  rw [List.mem_filterMap]
  exact ⟨target.day - 1, List.mem_range.mpr (by omega), by rwa [Nat.sub_add_cancel hd1]⟩

theorem chartEntryForDay_hasData (fps : List FlightPrice) (sd? : Option DateT)
    (target : DateT) (dur : Option ℚ) (tt : Option TripType) (d : Nat)
    (hpos : 0 < chartDayPrice fps target.year target.month d) :
    ∃ e, chartEntryForDay fps sd? target dur tt d = some e := by
  unfold chartEntryForDay
  dsimp only
  rw [if_pos (Or.inl hpos)]
  exact ⟨_, rfl⟩

theorem generateChartData_day_mem (fps : List FlightPrice) (target : DateT)
    (ed? : Option DateT) (today : DateT) (dur : Option ℚ) (tt : Option TripType)
    (pass : Passengers) (d : Nat) (hd1 : 1 ≤ d)
    (hd2 : d ≤ daysInMonth target.year target.month) (e : ChartEntry)
    (he : chartEntryForDay fps (some target) target dur tt d = some e) :
    e ∈ generateChartData fps (some target) ed? today dur tt pass := by
  unfold generateChartData
  simp only [Option.getD_some]
  rw [List.mem_filterMap]
  exact ⟨d - 1, List.mem_range.mpr (by omega), by rwa [Nat.sub_add_cancel hd1]⟩

set_option maxRecDepth 150000 in
/-- C6 counterexample — in a 31-day chart month with flight data only on
day 5 (two rows, the first stored one at 300, a cheaper one at 200) and
anchor day 10, the chart has 2 entries, not one per day, and the day-5
entry carries 300, the first matching row's price, not the day's cheapest
price 200. -/
theorem C6_counterexample :
    (generateChartData sampleChartFlights (some ⟨2026, 1, 10⟩) none ⟨2026, 1, 1⟩ none
      (some TripType.roundTrip) passengers100).map (fun e => (e.startDate, e.price)) =
      [("5 ม.ค.", 300), ("10 ม.ค.", 0)] ∧
    daysInMonth 2026 1 = 31 ∧
    (generateChartData sampleChartFlights (some ⟨2026, 1, 10⟩) none ⟨2026, 1, 1⟩ none
      (some TripType.roundTrip) passengers100).length ≠ 31 ∧
    (cheapestFlight (sampleChartFlights.filter (fun fp =>
      fp.year = 2026 && fp.month = 1 && fp.day = 5))).map (·.price) = some 200 ∧
    (300 : ℚ) ≠ 200 := by
  with_unfolding_all decide

/-- C6 amended — for the calendar month of the anchor date, the chart
contains an entry for each day that has a matching flight row with
positive price, plus the anchor day itself even when it has no price;
each entry's price is `Math.round` of the price of the FIRST stored row
matching that exact day (0 when none, not the day's cheapest), and its
season is the stored `season` field of that row (`normal` when none), not
the classifier's label for the month. -/
theorem C6_chart_entries (fps : List FlightPrice) (target : DateT) (ed? : Option DateT)
    (today : DateT) (dur : Option ℚ) (tt : Option TripType) (pass : Passengers)
    (hd1 : 1 ≤ target.day) (hd2 : target.day ≤ daysInMonth target.year target.month) :
    (∃ e ∈ generateChartData fps (some target) ed? today dur tt pass,
      e.startDate = formatThaiDateShort target.month target.day ∧
      e.price = jsRound (chartDayPrice fps target.year target.month target.day)) ∧
    (∀ d, 1 ≤ d → d ≤ daysInMonth target.year target.month →
      0 < chartDayPrice fps target.year target.month d →
      ∃ e ∈ generateChartData fps (some target) ed? today dur tt pass,
        e.startDate = formatThaiDateShort target.month d ∧
        e.price = jsRound (chartDayPrice fps target.year target.month d)) ∧
    (∀ e ∈ generateChartData fps (some target) ed? today dur tt pass,
      ∃ d, 1 ≤ d ∧ d ≤ daysInMonth target.year target.month ∧
        e.startDate = formatThaiDateShort target.month d ∧
        e.price = jsRound (chartDayPrice fps target.year target.month d) ∧
        e.season = ((findFlightOnDay fps target.year target.month d).map (·.season)).getD
          Season.normal ∧
        (0 < chartDayPrice fps target.year target.month d ∨ d = target.day)) := by
  refine ⟨?_, ?_, ?_⟩
  · obtain ⟨e, hmem, he⟩ :=
      generateChartData_anchor_mem fps target ed? today dur tt pass hd1 hd2
    obtain ⟨h1, h2, _, _⟩ := chartEntryForDay_eq_some fps (some target) target dur tt _ e he
    exact ⟨e, hmem, h1, h2⟩
  · intro d hdl hdu hpos
    obtain ⟨e, he⟩ := chartEntryForDay_hasData fps (some target) target dur tt d hpos
    obtain ⟨h1, h2, _, _⟩ := chartEntryForDay_eq_some fps (some target) target dur tt d e he
    exact ⟨e, generateChartData_day_mem fps target ed? today dur tt pass d hdl hdu e he,
      h1, h2⟩
  · intro e he
    obtain ⟨d, hd1', hd2', hsome⟩ :=
      generateChartData_mem_spec fps target ed? today dur tt pass e he
    obtain ⟨h1, h2, h3, h4⟩ := chartEntryForDay_eq_some fps (some target) target dur tt d e hsome
    refine ⟨d, hd1', hd2', h1, h2, h3, ?_⟩
    rcases h4 with h4 | h4
    · exact Or.inl h4
    · right
      have := Option.some.inj h4
      cases target
      cases this
      rfl

/-- C6 amended, witnessed at a concrete input. -/
theorem C6_chart_entries_witness :
    (1 ≤ (⟨2026, 1, 10⟩ : DateT).day ∧
      (⟨2026, 1, 10⟩ : DateT).day ≤ daysInMonth 2026 1) ∧
    (∃ e ∈ generateChartData sampleChartFlights (some ⟨2026, 1, 10⟩) none ⟨2026, 1, 1⟩
        none (some TripType.roundTrip) passengers100,
      e.startDate = formatThaiDateShort 1 10 ∧
      e.price = jsRound (chartDayPrice sampleChartFlights 2026 1 10)) ∧
    (∀ d, 1 ≤ d → d ≤ daysInMonth 2026 1 →
      0 < chartDayPrice sampleChartFlights 2026 1 d →
      ∃ e ∈ generateChartData sampleChartFlights (some ⟨2026, 1, 10⟩) none ⟨2026, 1, 1⟩
          none (some TripType.roundTrip) passengers100,
        e.startDate = formatThaiDateShort 1 d ∧
        e.price = jsRound (chartDayPrice sampleChartFlights 2026 1 d)) ∧
    (∀ e ∈ generateChartData sampleChartFlights (some ⟨2026, 1, 10⟩) none ⟨2026, 1, 1⟩
        none (some TripType.roundTrip) passengers100,
      ∃ d, 1 ≤ d ∧ d ≤ daysInMonth 2026 1 ∧
        e.startDate = formatThaiDateShort 1 d ∧
        e.price = jsRound (chartDayPrice sampleChartFlights 2026 1 d) ∧
        e.season = ((findFlightOnDay sampleChartFlights 2026 1 d).map (·.season)).getD
          Season.normal ∧
        (0 < chartDayPrice sampleChartFlights 2026 1 d ∨ d = 10)) := by
  refine ⟨⟨by decide, by decide⟩, ?_⟩
  exact C6_chart_entries sampleChartFlights ⟨2026, 1, 10⟩ none ⟨2026, 1, 1⟩ none
    (some TripType.roundTrip) passengers100 (by decide) (by decide)

set_option maxRecDepth 150000 in
/-- C5 counterexample — a one-way stored price of 1000 with passenger mix
{2 adults, 1 child, 1 infant}: the chart entry's price is 1000 (the raw
stored price, rounded), while half the passenger-scaled round-trip value
is `round(2850 · 0.5) = 1425`, so chart prices are neither
passenger-scaled nor halved. -/
theorem C5_counterexample :
    (generateChartData [sampleOneWayFlight] (some ⟨2026, 1, 5⟩) none ⟨2026, 1, 1⟩ none
      (some TripType.oneWay) passengers211).map (·.price) = [1000] ∧
    jsRound (calculatePriceWithDiscounts 1000 passengers211 * (1 / 2)) = 1425 ∧
    (1000 : ℚ) ≠ 1425 := by
  with_unfolding_all decide

/-- C5 amended — the Pricing Rules scaling
`p·(A + 0.75·C + 0.1·I)`, with the result halved exactly for one-way
trips and then rounded, applies to `recommendedPeriod.price` and to the
displayed season prices (best deal and price range), but every
`priceChartData[].price` is only `Math.round` of the raw matching stored
price, with no passenger scaling and no one-way halving. -/
theorem C5_pricing_application :
    (∀ (price : ℚ) (pass : Passengers),
      calculatePriceWithDiscounts price pass =
        price * (pass.adults + (75 / 100) * pass.children + (10 / 100) * pass.infants)) ∧
    (∀ (price : ℚ) (pass : Passengers),
      recommendedPeriodPrice price pass TripType.roundTrip =
        jsRound (calculatePriceWithDiscounts price pass) ∧
      recommendedPeriodPrice price pass TripType.oneWay =
        jsRound (calculatePriceWithDiscounts price pass * (1 / 2))) ∧
    (∀ (s : SeasonData) (pass : Passengers),
      (displayedSeason s pass TripType.roundTrip).bestDeal.price =
        jsRound (calculatePriceWithDiscounts s.bestDeal.price pass) ∧
      (displayedSeason s pass TripType.oneWay).bestDeal.price =
        jsRound (calculatePriceWithDiscounts s.bestDeal.price pass * (1 / 2)) ∧
      (displayedSeason s pass TripType.roundTrip).priceRange.min =
        jsRound (calculatePriceWithDiscounts s.priceRange.min pass) ∧
      (displayedSeason s pass TripType.roundTrip).priceRange.max =
        jsRound (calculatePriceWithDiscounts s.priceRange.max pass) ∧
      (displayedSeason s pass TripType.oneWay).priceRange.min =
        jsRound (calculatePriceWithDiscounts s.priceRange.min pass * (1 / 2)) ∧
      (displayedSeason s pass TripType.oneWay).priceRange.max =
        jsRound (calculatePriceWithDiscounts s.priceRange.max pass * (1 / 2))) ∧
    (∀ (fps : List FlightPrice) (target : DateT) (ed? : Option DateT) (today : DateT)
        (dur : Option ℚ) (tt : Option TripType) (pass : Passengers) (e : ChartEntry),
      e ∈ generateChartData fps (some target) ed? today dur tt pass →
      ∃ d, e.price = jsRound (chartDayPrice fps target.year target.month d)) := by
  refine ⟨?_, ?_, ?_, ?_⟩
  · intro price pass
    unfold calculatePriceWithDiscounts
    ring
  · intro price pass
    constructor
    · unfold recommendedPeriodPrice tripTypeFactor
      rw [if_neg (by intro h; cases h), mul_one]
    · unfold recommendedPeriodPrice tripTypeFactor
      rw [if_pos rfl]
  · intro s pass
    refine ⟨?_, ?_, ?_, ?_, ?_, ?_⟩
    · unfold displayedSeason tripTypeFactor
      dsimp only
      rw [if_neg (by intro h; cases h), mul_one]
    · unfold displayedSeason tripTypeFactor
      dsimp only
      rw [if_pos rfl]
    · unfold displayedSeason tripTypeFactor
      dsimp only
      rw [if_neg (by intro h; cases h), mul_one]
    · unfold displayedSeason tripTypeFactor
      dsimp only
      rw [if_neg (by intro h; cases h), mul_one]
    · unfold displayedSeason tripTypeFactor
      dsimp only
      rw [if_pos rfl]
    · unfold displayedSeason tripTypeFactor
      dsimp only
      rw [if_pos rfl]
  · intro fps target ed? today dur tt pass e he
    obtain ⟨d, _, _, hsome⟩ :=
      generateChartData_mem_spec fps target ed? today dur tt pass e he
    exact ⟨d, (chartEntryForDay_eq_some fps (some target) target dur tt d e hsome).2.1⟩

/-- C5 amended, witnessed at a concrete input. -/
theorem C5_pricing_application_witness :
    ∃ e ∈ generateChartData [sampleOneWayFlight] (some ⟨2026, 1, 5⟩) none ⟨2026, 1, 1⟩
        none (some TripType.oneWay) passengers211,
      ∃ d, e.price = jsRound (chartDayPrice [sampleOneWayFlight] 2026 1 d) := by
  obtain ⟨e, hmem, -⟩ := generateChartData_anchor_mem [sampleOneWayFlight] ⟨2026, 1, 5⟩
    none ⟨2026, 1, 1⟩ none (some TripType.oneWay) passengers211 (by decide) (by decide)
  exact ⟨e, hmem, C5_pricing_application.2.2.2 [sampleOneWayFlight] ⟨2026, 1, 5⟩ none
    ⟨2026, 1, 1⟩ none (some TripType.oneWay) passengers211 e hmem⟩

theorem mem_monthsList (m : Nat) : m ∈ monthsList ↔ 1 ≤ m ∧ m ≤ 12 := by
  constructor
  · intro hmem
    simp only [monthsList, List.mem_map, List.mem_range] at hmem
    obtain ⟨a, ha, rfl⟩ := hmem
    omega
  · intro hm
    simp only [monthsList, List.mem_map, List.mem_range]
    exact ⟨m - 1, by omega, by omega⟩

theorem getThaiMonthName_injOn :
    ∀ a ∈ monthsList, ∀ b ∈ monthsList, getThaiMonthName a = getThaiMonthName b →
      a = b := by
  decide

theorem fallbackPricePercentile_bounds (flightPrices : List FlightPrice) (avgPrice : ℚ) :
    0 ≤ fallbackPricePercentile flightPrices avgPrice ∧
      fallbackPricePercentile flightPrices avgPrice ≤ 100 := by
  unfold fallbackPricePercentile
  dsimp only
  set n := (sortQ (allAvgPrices flightPrices)).length with hn
  set c := ((sortQ (allAvgPrices flightPrices)).filter (fun p => p ≤ avgPrice)).length
    with hc
  have hcn : c ≤ n := List.length_filter_le _ _
  constructor
  · positivity
  · rcases Nat.eq_zero_or_pos n with h0 | hpos
    · have hc0 : c = 0 := by omega
      rw [hc0, h0]
      norm_num
    · have hdiv : (c : ℚ) / (n : ℚ) ≤ 1 := by
        rw [div_le_one (by exact_mod_cast hpos)]
        exact_mod_cast hcn
      nlinarith

theorem percentile_const (l : List ℚ) (v : ℚ) (p : ℚ) (hl : l ≠ [])
    (_hp0 : 0 ≤ p) (hp1 : p ≤ 100) (hall : ∀ x ∈ l, x = v) : percentile l p = v := by
  unfold percentile
  have hlen : l.length ≠ 0 := by
    simpa [List.length_eq_zero] using hl
  rw [if_neg hlen]
  have hceil : ⌈p / 100 * (l.length : ℚ)⌉ ≤ (l.length : ℤ) := by
    apply Int.ceil_le.mpr
    push_cast
    have hple : p / 100 ≤ 1 := by
      rw [div_le_one (by norm_num : (0 : ℚ) < 100)]
      exact hp1
    nlinarith [Nat.cast_nonneg (α := ℚ) l.length]
  have hi : (max 0 (⌈p / 100 * (l.length : ℚ)⌉ - 1)).toNat < l.length := by
    omega
  rw [List.getD_eq_getElem?_getD, List.getElem?_eq_getElem hi, Option.getD_some]
  exact hall _ (List.getElem_mem hi)

theorem length_filter_eq_count_filterMap {α β : Type} [DecidableEq β]
    (f : α → Option β) (l : List α) (b : β) :
    (l.filter (fun a => f a = some b)).length = (l.filterMap f).count b := by
  induction l with
  | nil => rfl
  | cons hd tl ih =>
      cases hf : f hd with
      | none => simp [List.filter_cons, List.filterMap_cons, hf, ih]
      | some c =>
          by_cases hcb : c = b
          · subst hcb
            simp [List.filter_cons, List.filterMap_cons, hf, List.count_cons, ih]
          · simp [List.filter_cons, List.filterMap_cons, hf, List.count_cons, hcb, ih]

theorem monthAvgPrice_isSome_exists (flightPrices : List FlightPrice) (m : Nat)
    (h : (monthAvgPrice flightPrices m).isSome) :
    ∃ fp ∈ flightPrices, fp.month = m ∧ 0 < fp.price := by
  unfold monthAvgPrice at h
  dsimp only at h
  split at h
  · cases h
  · rename_i hne
    have hne' : monthValidPrices flightPrices m ≠ [] := by
      intro hc
      rw [hc] at hne
      exact hne rfl
    obtain ⟨q, hq⟩ := List.exists_mem_of_ne_nil _ hne'
    unfold monthValidPrices at hq
    obtain ⟨hq1, hq2⟩ := List.mem_filter.mp hq
    obtain ⟨fp, hfp, rfl⟩ := List.mem_map.mp hq1
    have hfp' : fp ∈ flightPrices ∧ fp.month = m := by
      simpa [monthFlights] using hfp
    refine ⟨fp, hfp'.1, hfp'.2, by simpa using hq2⟩

theorem monthAvgPrice_const (flightPrices : List FlightPrice) (c : ℚ)
    (hall : ∀ fp ∈ flightPrices, fp.price = c) (m : Nat) (x : ℚ)
    (hx : monthAvgPrice flightPrices m = some x) : x = c := by
  unfold monthAvgPrice at hx
  dsimp only at hx
  split at hx
  · cases hx
  · rename_i hne
    have hconst : ∀ q ∈ monthValidPrices flightPrices m, q = c := by
      intro q hq
      obtain ⟨hq1, _⟩ := List.mem_filter.mp hq
      obtain ⟨fp, hfp, rfl⟩ := List.mem_map.mp hq1
      have hfp' : fp ∈ flightPrices ∧ fp.month = m := by
        simpa [monthFlights] using hfp
      exact hall fp hfp'.1
    have hne' : monthValidPrices flightPrices m ≠ [] := by
      intro hcon
      rw [hcon] at hne
      exact hne rfl
    have hlen : (monthValidPrices flightPrices m).length ≠ 0 := by
      simpa [List.length_eq_zero] using hne'
    have hsum : (monthValidPrices flightPrices m).sum =
        (monthValidPrices flightPrices m).length • c :=
      List.sum_eq_card_nsmul _ c hconst
    have hx' : x = (monthValidPrices flightPrices m).sum /
        ((monthValidPrices flightPrices m).length : ℚ) := (Option.some.inj hx).symm
    have hlenQ : ((monthValidPrices flightPrices m).length : ℚ) ≠ 0 := by
      exact_mod_cast hlen
    rw [hx', hsum, nsmul_eq_mul, mul_comm, mul_div_assoc, div_self hlenQ, mul_one]

/-- C1 — for every month with flight data, the season score is composed
as 0.6·price_percentile + 0.3·holiday_score + 0.1·weather_score, the
holiday and weather operands defaulting to 50 when absent; under the
stored-statistics contract that database scores lie in [0, 100], all
three operands and the resulting score lie in [0, 100]. -/
theorem C1_season_score_composition (flightPrices : List FlightPrice)
    (weatherData holidayData priceStats : Nat → Option ℚ)
    (hw : ∀ m x, weatherData m = some x → 0 ≤ x ∧ x ≤ 100)
    (hh : ∀ m x, holidayData m = some x → 0 ≤ x ∧ x ≤ 100)
    (hp : ∀ m x, priceStats m = some x → 0 ≤ x ∧ x ≤ 100)
    (m : Nat) (hm : (monthAvgPrice flightPrices m).isSome) :
    ∃ pricePct holiday weather : ℚ,
      monthSeasonScore flightPrices weatherData holidayData priceStats m =
        some (pricePct * (6 / 10) + holiday * (3 / 10) + weather * (1 / 10)) ∧
      (0 ≤ pricePct ∧ pricePct ≤ 100) ∧
      (0 ≤ holiday ∧ holiday ≤ 100) ∧
      (0 ≤ weather ∧ weather ≤ 100) ∧
      (holidayData m = none → holiday = 50) ∧
      (weatherData m = none → weather = 50) ∧
      0 ≤ pricePct * (6 / 10) + holiday * (3 / 10) + weather * (1 / 10) ∧
      pricePct * (6 / 10) + holiday * (3 / 10) + weather * (1 / 10) ≤ 100 := by
  obtain ⟨avg, havg⟩ := Option.isSome_iff_exists.mp hm
  have hpb : 0 ≤ (match priceStats m with
        | some x => x
        | none => fallbackPricePercentile flightPrices avg) ∧
      (match priceStats m with
        | some x => x
        | none => fallbackPricePercentile flightPrices avg) ≤ 100 := by
    cases hps : priceStats m with
    | some x => exact hp m x hps
    | none => exact fallbackPricePercentile_bounds flightPrices avg
  have hhb : 0 ≤ (holidayData m).getD 50 ∧ (holidayData m).getD 50 ≤ 100 := by
    cases hhd : holidayData m with
    | some x => simpa using hh m x hhd
    | none => norm_num
  have hwb : 0 ≤ (weatherData m).getD 50 ∧ (weatherData m).getD 50 ≤ 100 := by
    cases hwd : weatherData m with
    | some x => simpa using hw m x hwd
    | none => norm_num
  refine ⟨(match priceStats m with
           | some x => x
           | none => fallbackPricePercentile flightPrices avg),
          (holidayData m).getD 50, (weatherData m).getD 50,
          ?_, hpb, hhb, hwb, ?_, ?_, ?_, ?_⟩
  · unfold monthSeasonScore
    rw [havg]
    rfl
  · intro hnone
    rw [hnone]
    rfl
  · intro hnone
    rw [hnone]
    rfl
  · nlinarith [hpb.1, hpb.2, hhb.1, hhb.2, hwb.1, hwb.2]
  · nlinarith [hpb.1, hpb.2, hhb.1, hhb.2, hwb.1, hwb.2]

/-- C1, witnessed at a concrete input. -/
theorem C1_season_score_composition_witness :
    (∀ m x, mapNone m = some x → 0 ≤ x ∧ x ≤ 100) ∧
    (monthAvgPrice sampleOneFlight 1).isSome = true ∧
    ∃ pricePct holiday weather : ℚ,
      monthSeasonScore sampleOneFlight mapNone mapNone mapNone 1 =
        some (pricePct * (6 / 10) + holiday * (3 / 10) + weather * (1 / 10)) ∧
      (0 ≤ pricePct ∧ pricePct ≤ 100) ∧
      (0 ≤ holiday ∧ holiday ≤ 100) ∧
      (0 ≤ weather ∧ weather ≤ 100) ∧
      (mapNone 1 = none → holiday = 50) ∧
      (mapNone 1 = none → weather = 50) ∧
      0 ≤ pricePct * (6 / 10) + holiday * (3 / 10) + weather * (1 / 10) ∧
      pricePct * (6 / 10) + holiday * (3 / 10) + weather * (1 / 10) ≤ 100 := by
  have hnone : ∀ m x, mapNone m = some x → 0 ≤ x ∧ x ≤ 100 := by
    intro m x hx
    simp [mapNone] at hx
  have hsome : (monthAvgPrice sampleOneFlight 1).isSome = true := by
    with_unfolding_all decide
  exact ⟨hnone, hsome, C1_season_score_composition sampleOneFlight mapNone mapNone
    mapNone hnone hnone hnone 1 hsome⟩

theorem percentile_sortQ_eq_spec (l : List ℚ) (p : ℚ) (hne : l ≠ []) :
    percentile (sortQ l) p = specPercentile l p := by
  unfold percentile specPercentile
  have hlen : (sortQ l).length = l.length := by
    rw [sortQ, List.length_insertionSort]
  rw [if_neg (by rw [hlen]; simpa [List.length_eq_zero] using hne), hlen]

/-- C2 — for every non-empty collection of monthly season scores, the
thresholds are the 33rd and 67th percentiles of the ascending-sorted
scores computed by `index = ceil(p/100 · n) − 1` clamped to 0, and a
scored month is classified Low when its score is ≤ t33, else High when it
is ≥ t67, else Normal. -/
theorem C2_tercile_thresholds (flightPrices : List FlightPrice)
    (weatherData holidayData priceStats : Nat → Option ℚ)
    (hne : monthsList.filterMap
      (monthSeasonScore flightPrices weatherData holidayData priceStats) ≠ []) :
    scoreLowThreshold flightPrices weatherData holidayData priceStats =
      specPercentile (monthsList.filterMap
        (monthSeasonScore flightPrices weatherData holidayData priceStats)) 33 ∧
    scoreHighThreshold flightPrices weatherData holidayData priceStats =
      specPercentile (monthsList.filterMap
        (monthSeasonScore flightPrices weatherData holidayData priceStats)) 67 ∧
    ∀ m s, monthSeasonScore flightPrices weatherData holidayData priceStats m = some s →
      monthSeasonMapOf flightPrices weatherData holidayData priceStats m =
        some (if s ≤ specPercentile (monthsList.filterMap
                (monthSeasonScore flightPrices weatherData holidayData priceStats)) 33
              then Season.low
              else if specPercentile (monthsList.filterMap
                (monthSeasonScore flightPrices weatherData holidayData priceStats)) 67 ≤ s
              then Season.high
              else Season.normal) := by
  have h33 : scoreLowThreshold flightPrices weatherData holidayData priceStats =
      specPercentile (monthsList.filterMap
        (monthSeasonScore flightPrices weatherData holidayData priceStats)) 33 :=
    percentile_sortQ_eq_spec _ 33 hne
  have h67 : scoreHighThreshold flightPrices weatherData holidayData priceStats =
      specPercentile (monthsList.filterMap
        (monthSeasonScore flightPrices weatherData holidayData priceStats)) 67 :=
    percentile_sortQ_eq_spec _ 67 hne
  refine ⟨h33, h67, ?_⟩
  intro m s hs
  unfold monthSeasonMapOf
  rw [hs]
  simp only [Option.map_some']
  rw [h33, h67]

/-- C2, witnessed at a concrete input. -/
theorem C2_tercile_thresholds_witness :
    monthsList.filterMap (monthSeasonScore sampleOneFlight mapNone mapNone mapNone) ≠ [] ∧
    (scoreLowThreshold sampleOneFlight mapNone mapNone mapNone =
      specPercentile (monthsList.filterMap
        (monthSeasonScore sampleOneFlight mapNone mapNone mapNone)) 33 ∧
    scoreHighThreshold sampleOneFlight mapNone mapNone mapNone =
      specPercentile (monthsList.filterMap
        (monthSeasonScore sampleOneFlight mapNone mapNone mapNone)) 67 ∧
    ∀ m s, monthSeasonScore sampleOneFlight mapNone mapNone mapNone m = some s →
      monthSeasonMapOf sampleOneFlight mapNone mapNone mapNone m =
        some (if s ≤ specPercentile (monthsList.filterMap
                (monthSeasonScore sampleOneFlight mapNone mapNone mapNone)) 33
              then Season.low
              else if specPercentile (monthsList.filterMap
                (monthSeasonScore sampleOneFlight mapNone mapNone mapNone)) 67 ≤ s
              then Season.high
              else Season.normal)) := by
  have hne : monthsList.filterMap
      (monthSeasonScore sampleOneFlight mapNone mapNone mapNone) ≠ [] := by
    with_unfolding_all decide
  exact ⟨hne, C2_tercile_thresholds sampleOneFlight mapNone mapNone mapNone hne⟩

set_option maxRecDepth 150000 in
/-- C3 counterexample — with three months of equal prices (no stored
statistics) every month's score is 80, so t33 = t67 = 80; month 1 ties
both thresholds yet is classified Low (the `score ≤ t33` branch is
checked first), and all three classified months are Low, not Normal: no
month is Normal at all. -/
theorem C3_counterexample :
    scoreLowThreshold sampleEqualPrices mapNone mapNone mapNone =
      scoreHighThreshold sampleEqualPrices mapNone mapNone mapNone ∧
    monthSeasonScore sampleEqualPrices mapNone mapNone mapNone 1 =
      some (scoreLowThreshold sampleEqualPrices mapNone mapNone mapNone) ∧
    monthSeasonMapOf sampleEqualPrices mapNone mapNone mapNone 1 = some Season.low ∧
    Season.low ≠ Season.normal ∧
    (monthsList.filter (fun m =>
      monthSeasonMapOf sampleEqualPrices mapNone mapNone mapNone m =
        some Season.normal)).length = 0 ∧
    (monthsList.filter (fun m =>
      monthSeasonMapOf sampleEqualPrices mapNone mapNone mapNone m =
        some Season.low)).length = 3 := by
  with_unfolding_all decide

/-- C3 amended — when exactly three months have season scores and the
scores are pairwise distinct, the classifier assigns exactly one month
Low, one Normal and one High; a month whose score ties the low threshold
(in particular one tying both thresholds) falls into Low, because the
`score ≤ t33` branch is checked first; and when all flight prices are
equal and no external statistics are stored, every month with data is
classified Low (the computation stays total — no division by zero). -/
theorem C3_tercile_split :
    (∀ (flightPrices : List FlightPrice) (weatherData holidayData priceStats : Nat → Option ℚ)
        (s1 s2 s3 : ℚ),
      allSeasonScores flightPrices weatherData holidayData priceStats = [s1, s2, s3] →
      s1 < s2 → s2 < s3 →
      ((monthsList.filter (fun m =>
          monthSeasonMapOf flightPrices weatherData holidayData priceStats m =
            some Season.low)).length = 1 ∧
       (monthsList.filter (fun m =>
          monthSeasonMapOf flightPrices weatherData holidayData priceStats m =
            some Season.normal)).length = 1 ∧
       (monthsList.filter (fun m =>
          monthSeasonMapOf flightPrices weatherData holidayData priceStats m =
            some Season.high)).length = 1)) ∧
    (∀ (flightPrices : List FlightPrice) (weatherData holidayData priceStats : Nat → Option ℚ)
        (m : Nat) (s : ℚ),
      monthSeasonScore flightPrices weatherData holidayData priceStats m = some s →
      s ≤ scoreLowThreshold flightPrices weatherData holidayData priceStats →
      monthSeasonMapOf flightPrices weatherData holidayData priceStats m =
        some Season.low) ∧
    (∀ (flightPrices : List FlightPrice) (c : ℚ),
      (∀ fp ∈ flightPrices, fp.price = c) →
      (∀ fp ∈ flightPrices, 1 ≤ fp.month ∧ fp.month ≤ 12) →
      ∀ m, (monthSeasonScore flightPrices mapNone mapNone mapNone m).isSome →
        monthSeasonMapOf flightPrices mapNone mapNone mapNone m = some Season.low) := by
  refine ⟨?_, ?_, ?_⟩
  · intro fps w h p s1 s2 s3 hsort h12 h23
    have h13 : s1 < s3 := h12.trans h23
    have hL : scoreLowThreshold fps w h p = s1 := by
      unfold scoreLowThreshold
      rw [hsort]
      unfold percentile
      rw [if_neg (by norm_num)]
      rw [show ⌈(33 : ℚ) / 100 * (([s1, s2, s3] : List ℚ).length : ℚ)⌉ = 1 from by
        rw [show (([s1, s2, s3] : List ℚ).length : ℚ) = 3 from by norm_num,
          Int.ceil_eq_iff]
        norm_num]
      norm_num [List.getD]
    have hH : scoreHighThreshold fps w h p = s3 := by
      unfold scoreHighThreshold
      rw [hsort]
      unfold percentile
      rw [if_neg (by norm_num)]
      rw [show ⌈(67 : ℚ) / 100 * (([s1, s2, s3] : List ℚ).length : ℚ)⌉ = 3 from by
        rw [show (([s1, s2, s3] : List ℚ).length : ℚ) = 3 from by norm_num,
          Int.ceil_eq_iff]
        norm_num]
      rw [show (max 0 ((3 : ℤ) - 1)).toNat = 2 from by decide]
      rfl
    have hmem : ∀ m ∈ monthsList, ∀ s,
        monthSeasonScore fps w h p m = some s → s = s1 ∨ s = s2 ∨ s = s3 := by
      intro m hm s hs
      have hsin : s ∈ allSeasonScores fps w h p := by
        unfold allSeasonScores sortQ
        rw [List.mem_insertionSort]
        exact List.mem_filterMap.mpr ⟨m, hm, hs⟩
      rw [hsort] at hsin
      simpa using hsin
    have hclassify : ∀ s, s = s1 ∨ s = s2 ∨ s = s3 →
        (if s ≤ scoreLowThreshold fps w h p then Season.low
         else if scoreHighThreshold fps w h p ≤ s then Season.high else Season.normal) =
        (if s = s1 then Season.low else if s = s2 then Season.normal else Season.high) := by
      intro s hs
      rw [hL, hH]
      rcases hs with rfl | rfl | rfl
      · rw [if_pos le_rfl, if_pos rfl]
      · rw [if_neg (not_le.mpr h12), if_neg (not_le.mpr h23), if_neg h12.ne',
          if_pos rfl]
      · rw [if_neg (not_le.mpr h13), if_pos le_rfl, if_neg h13.ne', if_neg h23.ne']
    have hmap : ∀ m ∈ monthsList, ∀ s,
        monthSeasonScore fps w h p m = some s →
        monthSeasonMapOf fps w h p m =
          some (if s = s1 then Season.low else if s = s2 then Season.normal
                else Season.high) := by
      intro m hm s hs
      unfold monthSeasonMapOf
      rw [hs]
      simp only [Option.map_some']
      rw [hclassify s (hmem m hm s hs)]
    have hcount : ∀ (starget : ℚ) (lab : Season),
        (∀ m ∈ monthsList,
          (monthSeasonMapOf fps w h p m = some lab ↔
            monthSeasonScore fps w h p m = some starget)) →
        (monthsList.filter (fun m =>
          monthSeasonMapOf fps w h p m = some lab)).length =
          (monthsList.filterMap (monthSeasonScore fps w h p)).count starget := by
      intro starget lab hiff
      rw [← length_filter_eq_count_filterMap]
      congr 1
      apply List.filter_congr
      intro m hm
      exact decide_eq_decide.mpr (hiff m hm)
    have hcnt3 : ∀ x : ℚ,
        (monthsList.filterMap (monthSeasonScore fps w h p)).count x =
          List.count x [s1, s2, s3] := by
      intro x
      have hperm := List.perm_insertionSort (· ≤ ·)
        (monthsList.filterMap (monthSeasonScore fps w h p))
      rw [← hperm.count_eq x]
      have : List.insertionSort (· ≤ ·)
          (monthsList.filterMap (monthSeasonScore fps w h p)) = [s1, s2, s3] := hsort
      rw [this]
    have hifflow : ∀ m ∈ monthsList,
        (monthSeasonMapOf fps w h p m = some Season.low ↔
          monthSeasonScore fps w h p m = some s1) := by
      intro m hm
      constructor
      · intro hml
        cases hsc : monthSeasonScore fps w h p m with
        | none =>
            unfold monthSeasonMapOf at hml
            rw [hsc] at hml
            cases hml
        | some s =>
            rw [hmap m hm s hsc] at hml
            have hlabeq := Option.some.inj hml
            rcases hmem m hm s hsc with rfl | rfl | rfl
            · rfl
            · simp [h12.ne'] at hlabeq
            · simp [h13.ne', h23.ne'] at hlabeq
      · intro hst
        rw [hmap m hm s1 hst, if_pos rfl]
    have hiffnormal : ∀ m ∈ monthsList,
        (monthSeasonMapOf fps w h p m = some Season.normal ↔
          monthSeasonScore fps w h p m = some s2) := by
      intro m hm
      constructor
      · intro hml
        cases hsc : monthSeasonScore fps w h p m with
        | none =>
            unfold monthSeasonMapOf at hml
            rw [hsc] at hml
            cases hml
        | some s =>
            rw [hmap m hm s hsc] at hml
            have hlabeq := Option.some.inj hml
            rcases hmem m hm s hsc with rfl | rfl | rfl
            · simp at hlabeq
            · rfl
            · simp [h13.ne', h23.ne'] at hlabeq
      · intro hst
        rw [hmap m hm s2 hst, if_neg h12.ne', if_pos rfl]
    have hiffhigh : ∀ m ∈ monthsList,
        (monthSeasonMapOf fps w h p m = some Season.high ↔
          monthSeasonScore fps w h p m = some s3) := by
      intro m hm
      constructor
      · intro hml
        cases hsc : monthSeasonScore fps w h p m with
        | none =>
            unfold monthSeasonMapOf at hml
            rw [hsc] at hml
            cases hml
        | some s =>
            rw [hmap m hm s hsc] at hml
            have hlabeq := Option.some.inj hml
            rcases hmem m hm s hsc with rfl | rfl | rfl
            · simp at hlabeq
            · simp [h12.ne'] at hlabeq
            · rfl
      · intro hst
        rw [hmap m hm s3 hst, if_neg h13.ne', if_neg h23.ne']
    refine ⟨?_, ?_, ?_⟩
    · rw [hcount s1 Season.low hifflow, hcnt3 s1]
      simp [List.count_cons, h12.ne', h13.ne']
    · rw [hcount s2 Season.normal hiffnormal, hcnt3 s2]
      simp [List.count_cons, h12.ne, h23.ne']
    · rw [hcount s3 Season.high hiffhigh, hcnt3 s3]
      simp [List.count_cons, h13.ne, h23.ne]
  · intro fps w h p m s hs hle
    unfold monthSeasonMapOf
    rw [hs]
    simp only [Option.map_some']
    rw [if_pos hle]
  · intro fps c hall hwf m hsome
    obtain ⟨s, hs⟩ := Option.isSome_iff_exists.mp hsome
    have hmA : (monthAvgPrice fps m).isSome := by
      unfold monthSeasonScore at hs
      cases hma : monthAvgPrice fps m with
      | none => rw [hma] at hs; cases hs
      | some _ => simp
    obtain ⟨fp, hfp, hfpm, _⟩ := monthAvgPrice_isSome_exists fps m hmA
    have hmmem : m ∈ monthsList := (mem_monthsList m).mpr (by
      rw [← hfpm]; exact hwf fp hfp)
    have hscore_eq : ∀ m' s',
        monthSeasonScore fps mapNone mapNone mapNone m' = some s' →
        s' = fallbackPricePercentile fps c * (6 / 10) + 50 * (3 / 10) +
          50 * (1 / 10) := by
      intro m' s' hs'
      unfold monthSeasonScore at hs'
      cases hma : monthAvgPrice fps m' with
      | none => rw [hma] at hs'; cases hs'
      | some avg =>
          rw [hma] at hs'
          simp only [Option.map_some'] at hs'
          have havgc : avg = c := monthAvgPrice_const fps c hall m' avg hma
          have hval := Option.some.inj hs'
          rw [← hval, havgc]
          rfl
    have hallv : ∀ x ∈ allSeasonScores fps mapNone mapNone mapNone,
        x = fallbackPricePercentile fps c * (6 / 10) + 50 * (3 / 10) +
          50 * (1 / 10) := by
      intro x hx
      unfold allSeasonScores sortQ at hx
      rw [List.mem_insertionSort] at hx
      obtain ⟨m', _, hx'⟩ := List.mem_filterMap.mp hx
      exact hscore_eq m' x hx'
    have hne : allSeasonScores fps mapNone mapNone mapNone ≠ [] := by
      have hsin : s ∈ allSeasonScores fps mapNone mapNone mapNone := by
        unfold allSeasonScores sortQ
        rw [List.mem_insertionSort]
        exact List.mem_filterMap.mpr ⟨m, hmmem, hs⟩
      intro hcon
      rw [hcon] at hsin
      cases hsin
    have hT : scoreLowThreshold fps mapNone mapNone mapNone =
        fallbackPricePercentile fps c * (6 / 10) + 50 * (3 / 10) + 50 * (1 / 10) :=
      percentile_const _ _ 33 hne (by norm_num) (by norm_num) hallv
    unfold monthSeasonMapOf
    rw [hs]
    simp only [Option.map_some']
    rw [if_pos (le_of_eq (by rw [hT, hscore_eq m s hs]))]

set_option maxRecDepth 150000 in
/-- C3 amended, witnessed at a concrete input. -/
theorem C3_tercile_split_witness :
    allSeasonScores sampleDistinctPrices mapNone mapNone mapNone = [40, 60, 80] ∧
    (40 : ℚ) < 60 ∧ (60 : ℚ) < 80 ∧
    ((monthsList.filter (fun m =>
        monthSeasonMapOf sampleDistinctPrices mapNone mapNone mapNone m =
          some Season.low)).length = 1 ∧
     (monthsList.filter (fun m =>
        monthSeasonMapOf sampleDistinctPrices mapNone mapNone mapNone m =
          some Season.normal)).length = 1 ∧
     (monthsList.filter (fun m =>
        monthSeasonMapOf sampleDistinctPrices mapNone mapNone mapNone m =
          some Season.high)).length = 1) := by
  have hsort : allSeasonScores sampleDistinctPrices mapNone mapNone mapNone =
      [40, 60, 80] := by
    with_unfolding_all decide
  exact ⟨hsort, by norm_num, by norm_num,
    C3_tercile_split.1 sampleDistinctPrices mapNone mapNone mapNone 40 60 80 hsort
      (by norm_num) (by norm_num)⟩

set_option maxRecDepth 150000 in
/-- C4 counterexample — with flight data only in January and February,
month 3 (March) has no score, yet the classifier output assigns all ten
no-data months to the Normal season: the months lists have sizes 1, 10
and 1, and March's Thai name appears in the Normal entry. -/
theorem C4_counterexample :
    monthAvgPrice sampleTwoMonths 3 = none ∧
    monthSeasonScore sampleTwoMonths mapNone mapNone mapNone 3 = none ∧
    (calculateSeasonsFromFlightPricesWithDemand sampleTwoMonths mapNone mapNone
      mapNone).map (fun s => (s.type, s.months.length)) =
      [(Season.low, 1), (Season.normal, 10), (Season.high, 1)] ∧
    (calculateSeasonsFromFlightPricesWithDemand sampleTwoMonths mapNone mapNone
      mapNone).map (fun s => decide (getThaiMonthName 3 ∈ s.months)) =
      [false, true, false] := by
  with_unfolding_all decide

/-- C4 amended — a month with no flight rows receives no season score and
no classifier-map entry (the thresholds range only over months with
data), but it is NOT left out of the output: the 1–12 fill loop places
every unscored month in the Normal season's months list (and in no other
season's list). -/
theorem C4_no_data_months (flightPrices : List FlightPrice)
    (weatherData holidayData priceStats : Nat → Option ℚ) (m : Nat)
    (hm1 : 1 ≤ m) (hm2 : m ≤ 12)
    (hnodata : monthAvgPrice flightPrices m = none)
    (hsome : ∃ m' ∈ monthsList, (monthAvgPrice flightPrices m').isSome) :
    monthSeasonScore flightPrices weatherData holidayData priceStats m = none ∧
    monthSeasonMapOf flightPrices weatherData holidayData priceStats m = none ∧
    ∃ lowE normalE highE,
      calculateSeasonsFromFlightPricesWithDemand flightPrices weatherData holidayData
        priceStats = [lowE, normalE, highE] ∧
      lowE.type = Season.low ∧ normalE.type = Season.normal ∧
      highE.type = Season.high ∧
      getThaiMonthName m ∈ normalE.months ∧
      getThaiMonthName m ∉ lowE.months ∧
      getThaiMonthName m ∉ highE.months := by
  obtain ⟨m', hm', hsome'⟩ := hsome
  have hscore : monthSeasonScore flightPrices weatherData holidayData priceStats m =
      none := by
    unfold monthSeasonScore
    rw [hnodata]
    rfl
  have hmapn : monthSeasonMapOf flightPrices weatherData holidayData priceStats m =
      none := by
    unfold monthSeasonMapOf
    rw [hscore]
    rfl
  obtain ⟨fp, hfp, _, _⟩ := monthAvgPrice_isSome_exists flightPrices m' hsome'
  have hfe : ¬(flightPrices.isEmpty = true) := by
    cases flightPrices with
    | nil => cases hfp
    | cons a l => simp
  obtain ⟨avg, havg⟩ := Option.isSome_iff_exists.mp hsome'
  have hae : ¬((allAvgPrices flightPrices).isEmpty = true) := by
    have hin : avg ∈ allAvgPrices flightPrices := List.mem_filterMap.mpr ⟨m', hm', havg⟩
    cases hall : allAvgPrices flightPrices with
    | nil => rw [hall] at hin; cases hin
    | cons a l => simp
  have hmm : m ∈ monthsList := (mem_monthsList m).mpr ⟨hm1, hm2⟩
  refine ⟨hscore, hmapn,
    buildSeasonData flightPrices weatherData holidayData priceStats Season.low,
    buildSeasonData flightPrices weatherData holidayData priceStats Season.normal,
    buildSeasonData flightPrices weatherData holidayData priceStats Season.high,
    ?_, rfl, rfl, rfl, ?_, ?_, ?_⟩
  · unfold calculateSeasonsFromFlightPricesWithDemand
    rw [if_neg hfe, if_neg hae]
  · unfold buildSeasonData
    dsimp only
    apply List.mem_map.mpr
    refine ⟨m, ?_, rfl⟩
    unfold seasonMonthsOf
    apply List.mem_filter.mpr
    refine ⟨hmm, ?_⟩
    rw [hmapn]
    simp
  · intro hcon
    unfold buildSeasonData at hcon
    dsimp only at hcon
    obtain ⟨m'', hm''f, heq⟩ := List.mem_map.mp hcon
    unfold seasonMonthsOf at hm''f
    obtain ⟨hm''mem, hm''cls⟩ := List.mem_filter.mp hm''f
    have hm''m : m'' = m := getThaiMonthName_injOn m'' hm''mem m hmm heq
    rw [hm''m, hmapn] at hm''cls
    simp at hm''cls
  · intro hcon
    unfold buildSeasonData at hcon
    dsimp only at hcon
    obtain ⟨m'', hm''f, heq⟩ := List.mem_map.mp hcon
    unfold seasonMonthsOf at hm''f
    obtain ⟨hm''mem, hm''cls⟩ := List.mem_filter.mp hm''f
    have hm''m : m'' = m := getThaiMonthName_injOn m'' hm''mem m hmm heq
    rw [hm''m, hmapn] at hm''cls
    simp at hm''cls

set_option maxRecDepth 150000 in
/-- C4 amended, witnessed at a concrete input. -/
theorem C4_no_data_months_witness :
    ((1 ≤ 3 ∧ 3 ≤ 12) ∧ monthAvgPrice sampleTwoMonths 3 = none ∧
      (∃ m' ∈ monthsList, (monthAvgPrice sampleTwoMonths m').isSome)) ∧
    (monthSeasonScore sampleTwoMonths mapNone mapNone mapNone 3 = none ∧
     monthSeasonMapOf sampleTwoMonths mapNone mapNone mapNone 3 = none ∧
     ∃ lowE normalE highE,
       calculateSeasonsFromFlightPricesWithDemand sampleTwoMonths mapNone mapNone
         mapNone = [lowE, normalE, highE] ∧
       lowE.type = Season.low ∧ normalE.type = Season.normal ∧
       highE.type = Season.high ∧
       getThaiMonthName 3 ∈ normalE.months ∧
       getThaiMonthName 3 ∉ lowE.months ∧
       getThaiMonthName 3 ∉ highE.months) := by
  have h1 : monthAvgPrice sampleTwoMonths 3 = none := by
    with_unfolding_all decide
  have h2 : ∃ m' ∈ monthsList, (monthAvgPrice sampleTwoMonths m').isSome :=
    ⟨1, by decide, by with_unfolding_all decide⟩
  exact ⟨⟨⟨by norm_num, by norm_num⟩, h1, h2⟩,
    C4_no_data_months sampleTwoMonths mapNone mapNone mapNone 3 (by norm_num)
      (by norm_num) h1 h2⟩

end FlightSearch
